import Mathlib

/-!
Shallow embedding of the gallery persistence layer (`src/lib/gallery-store.ts`)
and the gallery manager's CRUD/ordering handlers
(`src/components/gallery-manager.tsx`) of the LIC.JULIA repository.

Modelling conventions:
- `localStorage` is a finite map keyed (after the `gallery-` prefixing) by the
  gallery type.  A stored entry is a raw string that either parses to a list of
  items or fails to parse; we model a stored value as
  `Option (List GalleryItem)` (`none` = the raw string exists but
  `JSON.parse` throws), and an absent key as the outer `none` of
  `Option (Option (List GalleryItem))`.  JSON serialisation of an item list is
  modelled as the identity (the records are plain data).
- JavaScript `number` order values are modelled as `Int`; item ids as `Nat`.
- `window.dispatchEvent(new CustomEvent("gallery-updated", ...))` is modelled
  by the second component of the result: `some (type, items)` when the event
  fires, `none` when it does not.
- `items.sort((a, b) => (a.order || 0) - (b.order || 0))` sorts ascending by
  `order`, where a missing (or falsy, i.e. `0`) order compares as `0`.
-/

/-- The `GalleryItem` interface of `gallery-store.ts`: `alt`, `order` and
`featured` are optional fields. -/
structure GalleryItem where
  id : Nat
  imageUrl : String
  title : String
  description : String
  alt : Option String := none
  order : Option Int := none
  featured : Option Bool := none
deriving Repr, DecidableEq

/-- The `GalleryType` enumeration: the fixed enumeration of gallery identifiers. -/
inductive GalleryType where
  | hero
  | eventos
  | actividades
  | propuestasAccion
deriving Repr, DecidableEq

/-- The browser `localStorage`, restricted to the `gallery-` keys the store
uses: for each gallery type, `none` = no entry, `some none` = an entry whose
raw string fails to parse, `some (some l)` = an entry parsing to `l`. -/
def Store : Type := GalleryType → Option (Option (List GalleryItem))

/-- A fired `gallery-updated` event: its `detail` is `{ type, items }`. -/
def GalleryEvent : Type := GalleryType × List GalleryItem

/-- The `INITIAL_GALLERIES` constant: the fixed seed data of `gallery-store.ts`. -/
def INITIAL_GALLERIES : GalleryType → List GalleryItem
  | .hero =>
    [ { id := 1, imageUrl := "/placeholder.svg?height=600&width=800",
        title := "Julia Villagómez en campaña",
        description := "Trabajando por un mejor futuro para nuestra comunidad",
        alt := some "Julia Villagómez en campaña", order := some 0 },
      { id := 2, imageUrl := "/placeholder.svg?height=600&width=800",
        title := "Reunión con la comunidad",
        description := "Escuchando las necesidades de los ciudadanos",
        alt := some "Reunión con la comunidad", order := some 1 },
      { id := 3, imageUrl := "/placeholder.svg?height=600&width=800",
        title := "Propuestas para el futuro",
        description := "Presentando nuestras propuestas para el desarrollo",
        alt := some "Propuestas para el futuro", order := some 2 } ]
  | .eventos =>
    [ { id := 1, imageUrl := "/placeholder.svg?height=400&width=600",
        title := "Visita a la comunidad",
        description := "Reunión con líderes comunitarios para discutir necesidades locales.",
        order := some 0 },
      { id := 2, imageUrl := "/placeholder.svg?height=400&width=600",
        title := "Evento comunitario",
        description := "Participación en evento comunitario local.",
        order := some 1 } ]
  | .actividades =>
    [ { id := 1, imageUrl := "/placeholder.svg?height=400&width=600",
        title := "Foro político",
        description := "Participación en foro sobre políticas públicas.",
        order := some 0 },
      { id := 2, imageUrl := "/placeholder.svg?height=400&width=600",
        title := "Reunión de trabajo",
        description := "Reunión con equipo de trabajo para planificar estrategias.",
        order := some 1 } ]
  | .propuestasAccion =>
    [ { id := 1, imageUrl := "/placeholder.svg?height=400&width=600",
        title := "Proyecto de salud",
        description := "Inauguración de nueva clínica comunitaria para mejorar servicios de salud.",
        order := some 0 },
      { id := 2, imageUrl := "/placeholder.svg?height=400&width=600",
        title := "Programa educativo",
        description := "Lanzamiento de programa educativo para jóvenes.",
        order := some 1 } ]

/-- The sort key of `(a.order || 0) - (b.order || 0)`: a missing order
compares as `0` (and JavaScript's falsy `0` is also `0`). -/
def orderVal (item : GalleryItem) : Int :=
  item.order.getD 0

/-- The `items.sort((a, b) => (a.order || 0) - (b.order || 0))` call: ascending sort
by `orderVal`. -/
def sortGalleryItems (items : List GalleryItem) : List GalleryItem :=
  items.insertionSort (fun a b => orderVal a ≤ orderVal b)

/-- Function `getGalleryItems` of `gallery-store.ts` (the browser branch,
`typeof window !== "undefined"`): returns the seed data when no entry exists;
parses a present entry and returns it sorted by order; on a parse error the
`catch` logs and the function falls through to the seed data. -/
def getGalleryItems (store : Store) (galleryType : GalleryType) : List GalleryItem :=
  match store galleryType with
  | some (some items) => sortGalleryItems items
  | some none => INITIAL_GALLERIES galleryType
  | none => INITIAL_GALLERIES galleryType

/-- The `items.map((item, index) => ({ ...item, order: item.order !== undefined
? item.order : index }))` step of `saveGalleryItems`, with the running index
made explicit. -/
def normalizeOrdersFrom (index : Nat) : List GalleryItem → List GalleryItem
  | [] => []
  | item :: rest =>
      { item with order := some (item.order.getD (index : Int)) } ::
        normalizeOrdersFrom (index + 1) rest

/-- The `itemsWithOrder` list of `saveGalleryItems`: every item gets a defined order,
keeping an existing order value and falling back to the list index. -/
def normalizeOrders (items : List GalleryItem) : List GalleryItem :=
  normalizeOrdersFrom 0 items

/-- Function `saveGalleryItems` of `gallery-store.ts` (browser branch): normalizes the
orders, writes the list under the gallery's key, and dispatches a
`gallery-updated` event carrying the gallery type and the written list.
Returns the updated store and the fired event. -/
def saveGalleryItems (store : Store) (galleryType : GalleryType)
    (items : List GalleryItem) : Store × Option GalleryEvent :=
  let itemsWithOrder := normalizeOrders items
  (fun g => if g = galleryType then some (some itemsWithOrder) else store g,
   some (galleryType, itemsWithOrder))

/-- Function `updateGalleryItem` of `gallery-store.ts`: reads the current items, maps
the matching id to the updated item, and re-saves the whole list. -/
def updateGalleryItem (store : Store) (galleryType : GalleryType)
    (updatedItem : GalleryItem) : Store × Option GalleryEvent :=
  let items := getGalleryItems store galleryType
  let updatedItems := items.map fun item =>
    if item.id = updatedItem.id then updatedItem else item
  saveGalleryItems store galleryType updatedItems

/-- The `itemIds.map((id, index) => ...)` body of `reorderGalleryItems`: each
id is looked up in the current items; a found item is re-emitted with
`order := index`, a missing id throws (modelled as `none`), aborting the
whole map. -/
def reorderPick (items : List GalleryItem) (itemIds : List Nat)
    (index : Nat) : Option (List GalleryItem) :=
  match itemIds with
  | [] => some []
  | id :: rest =>
      match items.find? (fun i => i.id = id) with
      | some item =>
          (reorderPick items rest (index + 1)).map
            (fun tl => { item with order := some (index : Int) } :: tl)
      | none => none

/-- Function `reorderGalleryItems` of `gallery-store.ts`: builds the reordered list
from the id list; the thrown error on an unknown id is caught by the outer
`catch`, which only logs — the store is left untouched and no event fires. -/
def reorderGalleryItems (store : Store) (galleryType : GalleryType)
    (itemIds : List Nat) : Store × Option GalleryEvent :=
  let items := getGalleryItems store galleryType
  match reorderPick items itemIds 0 with
  | some reorderedItems => saveGalleryItems store galleryType reorderedItems
  | none => (store, none)

/-!
Handlers of `GalleryManager` (`src/components/gallery-manager.tsx`).  Each
handler reads the in-memory `galleryItems` state, builds a new list, stores it
with `setGalleryItems` and hands it to `onUpdateGallery`; we model a handler as
a pure function of the current list (plus the handler's other inputs),
returning the new list — and, for `handleAddGalleryItem`, the user-visible
outcome flags as well.
-/

/-- JavaScript `String.prototype.startsWith`, modelled on the underlying
character sequences of the two strings. -/
def stringStartsWith (s pre : String) : Bool :=
  pre.data.isPrefixOf s.data

/-- Outcome of `handleAddGalleryItem`: the resulting `galleryItems` state,
whether `onUpdateGallery` was invoked (`committed`), and the transient
`uploadError` / `uploadSuccess` banners as set by the handler. -/
structure AddResult where
  items : List GalleryItem
  committed : Bool
  uploadError : Option String
  uploadSuccess : Bool
deriving Repr, DecidableEq

/-- Handler `handleAddGalleryItem` of `gallery-manager.tsx`.  `newTitle`,
`newDescription`, `newImageUrl` are the `newItem` form fields (the JavaScript
truthiness test `newItem.title && newItem.description` is the non-emptiness
of the two strings); `newId` is the `Date.now()` timestamp; `conv` models the
`fetch` + `blob` + `fileToDataUrl` pipeline applied to a `blob:` URL (`none` =
that pipeline threw).  A conversion failure is caught by the inner `catch`,
which only logs: the item keeps the `blob:` URL and the add still commits. -/
def handleAddGalleryItem (galleryItems : List GalleryItem)
    (newTitle newDescription newImageUrl : String) (newId : Nat)
    (conv : String → Option String) : AddResult :=
  if newTitle ≠ "" ∧ newDescription ≠ "" then
    let imageUrl :=
      if stringStartsWith newImageUrl "blob:" then
        match conv newImageUrl with
        | some base64 => base64
        | none => newImageUrl
      else newImageUrl
    let newGalleryItem : GalleryItem :=
      { id := newId, imageUrl := imageUrl, title := newTitle,
        description := newDescription,
        order := some (galleryItems.length : Int) }
    let updatedItems := galleryItems ++ [newGalleryItem]
    { items := updatedItems, committed := true,
      uploadError := none, uploadSuccess := true }
  else
    { items := galleryItems, committed := false,
      uploadError := some "Por favor complete todos los campos",
      uploadSuccess := false }

/-- The `updatedItems.map((item, index) => ({ ...item, order: index }))`
reindexing step of `handleDeleteItem`, with the running index explicit. -/
def reindexFrom (index : Nat) : List GalleryItem → List GalleryItem
  | [] => []
  | item :: rest =>
      { item with order := some (index : Int) } :: reindexFrom (index + 1) rest

/-- Handler `handleDeleteItem` of `gallery-manager.tsx`: filters out the matching id
and reindexes the remaining items' orders to their new positions. -/
def handleDeleteItem (galleryItems : List GalleryItem) (id : Nat) :
    List GalleryItem :=
  reindexFrom 0 (galleryItems.filter fun item => item.id ≠ id)

/-- Handler `handleSaveEditedItem` of `gallery-manager.tsx`: replaces the item whose
id matches the edited item, wholesale. -/
def handleSaveEditedItem (galleryItems : List GalleryItem)
    (updatedItem : GalleryItem) : List GalleryItem :=
  galleryItems.map fun item =>
    if item.id = updatedItem.id then updatedItem else item

/-- Handler `handleMoveUp` of `gallery-manager.tsx`: no-op at index `0` (the code
guards `index <= 0`); otherwise swaps the item at `index` with the one at
`index - 1`, setting the moved item's order to `index - 1` and the displaced
item's order to `index`.  The component only invokes in-range indices (the
buttons are rendered per item), so an out-of-range index is left as a no-op. -/
def handleMoveUp (galleryItems : List GalleryItem) (index : Nat) :
    List GalleryItem :=
  if h0 : index = 0 then galleryItems
  else if h : index < galleryItems.length then
    let itemToMove :=
      { galleryItems.get ⟨index, h⟩ with order := some ((index : Int) - 1) }
    let itemToReplace :=
      { galleryItems.get ⟨index - 1, by omega⟩ with order := some (index : Int) }
    (galleryItems.set index itemToReplace).set (index - 1) itemToMove
  else galleryItems

/-- Handler `handleMoveDown` of `gallery-manager.tsx`: no-op when `index` is the last
position (the code guards `index >= galleryItems.length - 1`, which with
JavaScript arithmetic also covers the empty list); otherwise swaps the item at
`index` with the one at `index + 1`, setting the moved item's order to
`index + 1` and the displaced item's order to `index`. -/
def handleMoveDown (galleryItems : List GalleryItem) (index : Nat) :
    List GalleryItem :=
  if h : index + 1 < galleryItems.length then
    let itemToMove :=
      { galleryItems.get ⟨index, by omega⟩ with order := some ((index : Int) + 1) }
    let itemToReplace :=
      { galleryItems.get ⟨index + 1, h⟩ with order := some (index : Int) }
    (galleryItems.set index itemToReplace).set (index + 1) itemToMove
  else galleryItems

/-- The `updatedItem = { ...item, featured: !item.featured }` of
`handleToggleFeatured`: JavaScript `!` maps an undefined flag to `true`. -/
def toggleUpdatedItem (item : GalleryItem) : GalleryItem :=
  { item with featured := some (! item.featured.getD false) }

/-- Handler `handleToggleFeatured` of `gallery-manager.tsx`: the clicked `item` (an
entry of the rendered list) is flipped and substituted for every list entry
with the same id. -/
def handleToggleFeatured (galleryItems : List GalleryItem)
    (item : GalleryItem) : List GalleryItem :=
  galleryItems.map fun i =>
    if i.id = item.id then toggleUpdatedItem item else i

/-- An item with its `order` field forgotten, to speak about lists being equal
"up to order values". -/
def eraseOrder (item : GalleryItem) : GalleryItem :=
  { item with order := none }

/-! Helper lemmas. -/

instance : IsTotal GalleryItem (fun a b => orderVal a ≤ orderVal b) :=
  ⟨fun a b => le_total (orderVal a) (orderVal b)⟩

instance : IsTrans GalleryItem (fun a b => orderVal a ≤ orderVal b) :=
  ⟨fun _ _ _ hab hbc => le_trans hab hbc⟩

theorem normalizeOrdersFrom_getElem? (l : List GalleryItem) :
    ∀ (n k : Nat), (normalizeOrdersFrom n l)[k]? =
      (l[k]?).map fun item =>
        { item with order := some (item.order.getD ((n + k : Nat) : Int)) } := by
  induction l with
  | nil => intro n k; simp [normalizeOrdersFrom]
  | cons hd tl ih =>
    intro n k
    cases k with
    | zero => simp [normalizeOrdersFrom]
    | succ k =>
      simp only [normalizeOrdersFrom, List.getElem?_cons_succ, ih (n + 1) k]
      have : n + 1 + k = n + (k + 1) := by omega
      rw [this]

theorem normalizeOrdersFrom_isSome (l : List GalleryItem) :
    ∀ n, ∀ item ∈ normalizeOrdersFrom n l, item.order.isSome := by
  induction l with
  | nil => intro n item h; simp [normalizeOrdersFrom] at h
  | cons hd tl ih =>
    intro n item h
    simp only [normalizeOrdersFrom, List.mem_cons] at h
    rcases h with rfl | h
    · simp
    · exact ih (n + 1) item h

theorem normalizeOrdersFrom_of_isSome (l : List GalleryItem)
    (h : ∀ item ∈ l, item.order.isSome) :
    ∀ n, normalizeOrdersFrom n l = l := by
  induction l with
  | nil => intro n; rfl
  | cons hd tl ih =>
    intro n
    have hhd : hd.order.isSome := h hd (List.mem_cons_self hd tl)
    obtain ⟨o, ho⟩ := Option.isSome_iff_exists.mp hhd
    simp only [normalizeOrdersFrom, ho, Option.getD_some]
    rw [ih (fun item hm => h item (List.mem_cons_of_mem hd hm)) (n + 1)]
    cases hd
    simp at ho
    simp [ho]

theorem reindexFrom_map_order (l : List GalleryItem) :
    ∀ n, (reindexFrom n l).map (fun item => item.order) =
      (List.range' n l.length).map fun k => some (k : Int) := by
  induction l with
  | nil => intro n; rfl
  | cons hd tl ih =>
    intro n
    simp [reindexFrom, List.range'_succ, ih (n + 1)]

theorem reindexFrom_map_eraseOrder (l : List GalleryItem) :
    ∀ n, (reindexFrom n l).map eraseOrder = l.map eraseOrder := by
  induction l with
  | nil => intro n; rfl
  | cons hd tl ih =>
    intro n
    simp [reindexFrom, eraseOrder, ih (n + 1)]

theorem reindexFrom_map_id (l : List GalleryItem) :
    ∀ n, (reindexFrom n l).map (fun item => item.id) =
      l.map (fun item => item.id) := by
  induction l with
  | nil => intro n; rfl
  | cons hd tl ih =>
    intro n
    simp [reindexFrom, ih (n + 1)]

theorem reorderPick_eq_none (items : List GalleryItem) (itemIds : List Nat)
    (h : ∃ id ∈ itemIds, items.find? (fun i => i.id = id) = none) :
    ∀ n, reorderPick items itemIds n = none := by
  induction itemIds with
  | nil => simp at h
  | cons hd tl ih =>
    intro n
    obtain ⟨id, hmem, hfind⟩ := h
    rcases List.mem_cons.mp hmem with rfl | hmem'
    · simp [reorderPick, hfind]
    · unfold reorderPick
      cases hf : items.find? (fun i => i.id = hd) with
      | none => rfl
      | some item => rw [ih ⟨id, hmem', hfind⟩ (n + 1)]; rfl

/-! Concrete fixtures used by witnesses and counterexamples. -/

/-- A sample item carrying a pre-existing `order` value of `5`. -/
def sampleItemA : GalleryItem :=
  { id := 1, imageUrl := "/a.jpg", title := "A", description := "da",
    order := some 5 }

/-- A sample item carrying a pre-existing `order` value of `9`. -/
def sampleItemB : GalleryItem :=
  { id := 2, imageUrl := "/b.jpg", title := "B", description := "db",
    order := some 9 }

/-- A sample item with a normalized `order` of `0`. -/
def sampleItemC : GalleryItem :=
  { id := 3, imageUrl := "/c.jpg", title := "C", description := "dc",
    order := some 0 }

/-- A `localStorage` with no gallery entries at all. -/
def emptyStore : Store := fun _ => none

/-- A `localStorage` whose `hero` entry exists but fails to parse. -/
def corruptStore : Store :=
  fun g => if g = GalleryType.hero then some none else none

/-- A `localStorage` whose `hero` entry parses to `[sampleItemB, sampleItemA]`
(stored out of order). -/
def okStore : Store :=
  fun g =>
    if g = GalleryType.hero then some (some [sampleItemB, sampleItemA])
    else none

/-- A `localStorage` whose `hero` entry parses to the single normalized item
`sampleItemC`. -/
def definedStore : Store :=
  fun g => if g = GalleryType.hero then some (some [sampleItemC]) else none

/-! Claims. -/

/-- C1, counterexample: `saveGalleryItems` keeps a pre-existing `order`
value, so saving a one-element list whose item carries `order = 5` stores
that item with `order = 5`, not with its position `0` — the stored `k`-th
item does not in general have `order = k`. -/
theorem saveGalleryItems_position_order_cex :
    (saveGalleryItems emptyStore GalleryType.hero [sampleItemA]).1
        GalleryType.hero =
      some (some [{ sampleItemA with order := some 5 }]) ∧
    some (5 : Int) ≠ some ((0 : Nat) : Int) := by
  constructor
  · rfl
  · decide

/-- C1 (amended): after any persisted write via `saveGalleryItems`, every
stored item has a defined order; the stored `k`-th item's order equals the
input `k`-th item's order when that was defined, and its position `k`
otherwise (so it equals `k` whenever the input items carry no order). -/
theorem saveGalleryItems_persisted_orders (store : Store) (g : GalleryType)
    (items : List GalleryItem) :
    (saveGalleryItems store g items).1 g = some (some (normalizeOrders items)) ∧
    (∀ item ∈ normalizeOrders items, item.order.isSome) ∧
    (∀ (k : Nat) (item : GalleryItem), items[k]? = some item →
      (normalizeOrders items)[k]? =
        some { item with order := some (item.order.getD (k : Int)) }) := by
  refine ⟨?_, normalizeOrdersFrom_isSome items 0, ?_⟩
  · simp [saveGalleryItems]
  · intro k item hk
    have h := normalizeOrdersFrom_getElem? items 0 k
    rw [hk] at h
    simpa using h

/-- C1 witness: the amended theorem at the one-element list `[sampleItemA]`. -/
theorem saveGalleryItems_persisted_orders_witness :
    (normalizeOrders [sampleItemA])[0]? =
      some { sampleItemA with
              order := some (sampleItemA.order.getD ((0 : Nat) : Int)) } :=
  (saveGalleryItems_persisted_orders emptyStore GalleryType.hero
    [sampleItemA]).2.2 0 sampleItemA rfl

/-- C3: when the id list references at least one identifier absent from the
gallery, `reorderGalleryItems` aborts wholesale: the store is unchanged, no
event fires, and no error escapes (the function is total). -/
theorem reorderGalleryItems_unknown_id (store : Store) (g : GalleryType)
    (itemIds : List Nat)
    (h : ∃ id ∈ itemIds, ∀ item ∈ getGalleryItems store g, item.id ≠ id) :
    reorderGalleryItems store g itemIds = (store, none) := by
  obtain ⟨id, hmem, hall⟩ := h
  have hfind : (getGalleryItems store g).find? (fun i => i.id = id) = none := by
    rw [List.find?_eq_none]
    intro x hx
    simpa using hall x hx
  simp only [reorderGalleryItems]
  rw [reorderPick_eq_none _ _ ⟨id, hmem, hfind⟩ 0]

/-- C3 witness: reordering the stored `hero` gallery by the id list `[42]`
(no stored item has id `42`) leaves the store untouched and fires nothing. -/
theorem reorderGalleryItems_unknown_id_witness :
    reorderGalleryItems okStore GalleryType.hero [42] = (okStore, none) :=
  reorderGalleryItems_unknown_id okStore GalleryType.hero [42] (by decide)

/-- C4: a `saveGalleryItems` followed by `getGalleryItems` on the same
gallery returns exactly the input list with orders normalized (items lacking
an order get their list index) and sorted ascending by order. -/
theorem saveGalleryItems_getGalleryItems_roundtrip (store : Store)
    (g : GalleryType) (items : List GalleryItem) :
    getGalleryItems ((saveGalleryItems store g items).1) g =
      sortGalleryItems (normalizeOrders items) := by
  simp [getGalleryItems, saveGalleryItems]

/-- C5: `getGalleryItems` returns the seed data when no entry exists, the
seed data when the entry fails to parse, and otherwise the parsed list
sorted ascending by order (missing order compares as `0`) — a permutation of
the stored list, sorted. -/
theorem getGalleryItems_spec (store : Store) (g : GalleryType) :
    (store g = none → getGalleryItems store g = INITIAL_GALLERIES g) ∧
    (store g = some none → getGalleryItems store g = INITIAL_GALLERIES g) ∧
    (∀ l, store g = some (some l) →
      getGalleryItems store g = sortGalleryItems l ∧
      (getGalleryItems store g).Perm l ∧
      List.Sorted (fun a b => orderVal a ≤ orderVal b)
        (getGalleryItems store g)) := by
  refine ⟨?_, ?_, ?_⟩
  · intro h; unfold getGalleryItems; rw [h]
  · intro h; unfold getGalleryItems; rw [h]
  · intro l h
    unfold getGalleryItems
    rw [h]
    exact ⟨rfl, List.perm_insertionSort _ l, List.sorted_insertionSort _ l⟩

/-- C5 witness: the three branches at concrete stores — absent entry,
unparsable entry, and an entry stored out of order. -/
theorem getGalleryItems_spec_witness :
    getGalleryItems emptyStore GalleryType.hero =
      INITIAL_GALLERIES GalleryType.hero ∧
    getGalleryItems corruptStore GalleryType.hero =
      INITIAL_GALLERIES GalleryType.hero ∧
    getGalleryItems okStore GalleryType.hero =
      sortGalleryItems [sampleItemB, sampleItemA] :=
  ⟨(getGalleryItems_spec emptyStore GalleryType.hero).1 rfl,
   (getGalleryItems_spec corruptStore GalleryType.hero).2.1 rfl,
   ((getGalleryItems_spec okStore GalleryType.hero).2.2
     [sampleItemB, sampleItemA] rfl).1⟩

/-- C2, counterexample: an Add whose `blob:` image reference fails to resolve
still commits — the inner `catch` only logs, so the item is appended, handed
to `onUpdateGallery`, and its stored image reference is the transient `blob:`
URL, with no error surfaced. -/
theorem handleAddGalleryItem_blob_failure_cex :
    stringStartsWith "blob:x" "blob:" = true ∧
    handleAddGalleryItem [] "t" "d" "blob:x" 99 (fun _ => none) =
      { items := [{ id := 99, imageUrl := "blob:x", title := "t",
                    description := "d", order := some 0 }],
        committed := true, uploadError := none, uploadSuccess := true } := by
  constructor
  · rfl
  · rfl

/-- C2 (amended): for a validated Add with a `blob:` image reference, the
operation always commits, appending one item; the stored image reference is
the durable encoding when the conversion succeeds and stays the transient
`blob:` reference when it fails (the failure is only logged); no error is
surfaced either way. -/
theorem handleAddGalleryItem_blob_spec (items : List GalleryItem)
    (title desc url : String) (id : Nat) (conv : String → Option String)
    (h1 : title ≠ "") (h2 : desc ≠ "")
    (h3 : stringStartsWith url "blob:" = true) :
    handleAddGalleryItem items title desc url id conv =
      { items := items ++
          [{ id := id, imageUrl := (conv url).getD url, title := title,
             description := desc, order := some (items.length : Int) }],
        committed := true, uploadError := none, uploadSuccess := true } := by
  cases hc : conv url with
  | none => simp [handleAddGalleryItem, h1, h2, h3, hc]
  | some base64 => simp [handleAddGalleryItem, h1, h2, h3, hc]

/-- C2 witness: a successful conversion stores the durable encoding. -/
theorem handleAddGalleryItem_blob_spec_witness :
    handleAddGalleryItem [] "t" "d" "blob:y" 7 (fun _ => some "data:img") =
      { items := [{ id := 7, imageUrl := "data:img", title := "t",
                    description := "d", order := some 0 }],
        committed := true, uploadError := none, uploadSuccess := true } := by
  exact handleAddGalleryItem_blob_spec [] "t" "d" "blob:y" 7
    (fun _ => some "data:img") (by decide) (by decide) (by decide)

/-- C6, counterexample: `handleMoveUp` swaps the two items but assigns their
orders from the new positions (`0` and `1`); it does not swap the items'
pre-existing order values (`5` and `9`), under either reading of "swaps the
two items' order values". -/
theorem handleMoveUp_swap_orders_cex :
    handleMoveUp [sampleItemA, sampleItemB] 1 =
      [{ sampleItemB with order := some 0 },
       { sampleItemA with order := some 1 }] ∧
    handleMoveUp [sampleItemA, sampleItemB] 1 ≠
      [{ sampleItemB with order := some 5 },
       { sampleItemA with order := some 9 }] ∧
    handleMoveUp [sampleItemA, sampleItemB] 1 ≠
      [{ sampleItemB with order := some 9 },
       { sampleItemA with order := some 5 }] := by
  refine ⟨?_, ?_, ?_⟩ <;> decide

/-- C6 (amended): `MoveUp(0)` and `MoveDown(last)` are no-ops; otherwise the
operation swaps the item at the index with its adjacent neighbor, assigning
the moved item the order value of its new position and the displaced
neighbor the order value of the vacated position (which coincides with
swapping their order values exactly when order values equal positions), and
leaves every other position unchanged. -/
theorem handleMove_spec (items : List GalleryItem) (i j : Nat)
    (hi0 : 0 < i) (hi : i < items.length) (hj : j + 1 < items.length) :
    handleMoveUp items 0 = items ∧
    handleMoveDown items (items.length - 1) = items ∧
    (handleMoveUp items i)[i - 1]? =
      (items[i]?).map (fun it => { it with order := some ((i : Int) - 1) }) ∧
    (handleMoveUp items i)[i]? =
      (items[i - 1]?).map (fun it => { it with order := some (i : Int) }) ∧
    (∀ k : Nat, k ≠ i - 1 → k ≠ i →
      (handleMoveUp items i)[k]? = items[k]?) ∧
    (handleMoveDown items j)[j + 1]? =
      (items[j]?).map (fun it => { it with order := some ((j : Int) + 1) }) ∧
    (handleMoveDown items j)[j]? =
      (items[j + 1]?).map (fun it => { it with order := some (j : Int) }) ∧
    (∀ k : Nat, k ≠ j → k ≠ j + 1 →
      (handleMoveDown items j)[k]? = items[k]?) := by
  have hup : handleMoveUp items i =
      (items.set i
        { items.get ⟨i - 1, by omega⟩ with order := some (i : Int) }).set
        (i - 1) { items.get ⟨i, hi⟩ with order := some ((i : Int) - 1) } := by
    unfold handleMoveUp
    rw [dif_neg (by omega), dif_pos hi]
  have hdown : handleMoveDown items j =
      (items.set j
        { items.get ⟨j + 1, hj⟩ with order := some (j : Int) }).set
        (j + 1) { items.get ⟨j, by omega⟩ with order := some ((j : Int) + 1) } := by
    unfold handleMoveDown
    rw [dif_pos hj]
  refine ⟨?_, ?_, ?_, ?_, ?_, ?_, ?_, ?_⟩
  · unfold handleMoveUp
    rw [dif_pos rfl]
  · unfold handleMoveDown
    rw [dif_neg (by omega)]
  · rw [hup, List.getElem?_set_eq_of_lt _ (by simp; omega),
      List.getElem?_eq_getElem hi]
    simp
  · rw [hup, List.getElem?_set_ne (by omega),
      List.getElem?_set_eq_of_lt _ (by omega),
      List.getElem?_eq_getElem (show i - 1 < items.length by omega)]
    simp
  · intro k hk1 hk2
    rw [hup, List.getElem?_set_ne (by omega), List.getElem?_set_ne (by omega)]
  · rw [hdown, List.getElem?_set_eq_of_lt _ (by simp; omega),
      List.getElem?_eq_getElem (show j < items.length by omega)]
    simp
  · rw [hdown, List.getElem?_set_ne (by omega),
      List.getElem?_set_eq_of_lt _ (by omega),
      List.getElem?_eq_getElem hj]
    simp
  · intro k hk1 hk2
    rw [hdown, List.getElem?_set_ne (by omega), List.getElem?_set_ne (by omega)]

/-- C6 witness: the amended theorem on a three-item list, moving position 1
up and position 1 down. -/
theorem handleMove_spec_witness :
    (handleMoveUp [sampleItemA, sampleItemB, sampleItemC] 1)[0]? =
      ([sampleItemA, sampleItemB, sampleItemC][1]?).map
        (fun it => { it with order := some ((1 : Int) - 1) }) ∧
    (handleMoveDown [sampleItemA, sampleItemB, sampleItemC] 1)[2]? =
      ([sampleItemA, sampleItemB, sampleItemC][1]?).map
        (fun it => { it with order := some ((1 : Int) + 1) }) := by
  have h := handleMove_spec [sampleItemA, sampleItemB, sampleItemC] 1 1
    (by decide) (by decide) (by decide)
  exact ⟨h.2.2.1, h.2.2.2.2.2.1⟩

/-- An item with no `featured` flag and no `order`, as built by the Add
form. -/
def plainItem : GalleryItem :=
  { id := 4, imageUrl := "/p.jpg", title := "P", description := "dp" }

/-- An item whose `featured` flag is explicitly `true`. -/
def featuredItem : GalleryItem :=
  { id := 5, imageUrl := "/f.jpg", title := "F", description := "df",
    order := some 0, featured := some true }

/-- C7, counterexample: toggling an item whose `featured` flag is undefined
twice leaves the flag explicitly `false`, not the original undefined value —
JavaScript `!undefined` is `true`, and the second toggle stores `false`. -/
theorem handleToggleFeatured_double_cex :
    plainItem.featured = none ∧
    handleToggleFeatured (handleToggleFeatured [plainItem] plainItem)
        { plainItem with featured := some true } =
      [{ plainItem with featured := some false }] ∧
    ({ plainItem with featured := some false } : GalleryItem) ≠ plainItem := by
  refine ⟨rfl, by decide, by decide⟩

/-- C7 (amended): a single toggle flips only the matching item's featured
flag, leaving every item's id and order (and all non-matching items)
unchanged; applying the toggle twice restores the original list exactly
whenever the item's featured flag was defined, while an undefined flag ends
as an explicit `false` (the same effective non-featured state). -/
theorem handleToggleFeatured_spec (items : List GalleryItem)
    (a : GalleryItem) (h : ∀ i ∈ items, i.id = a.id → i = a) :
    (handleToggleFeatured items a =
      items.map fun i => if i.id = a.id then toggleUpdatedItem a else i) ∧
    ((handleToggleFeatured items a).map (fun i => i.order) =
      items.map fun i => i.order) ∧
    ((handleToggleFeatured items a).map (fun i => i.id) =
      items.map fun i => i.id) ∧
    (handleToggleFeatured (handleToggleFeatured items a)
        (toggleUpdatedItem a) =
      items.map fun i =>
        if i.id = a.id then { a with featured := some (a.featured.getD false) }
        else i) ∧
    (∀ b : Bool, a.featured = some b →
      handleToggleFeatured (handleToggleFeatured items a)
        (toggleUpdatedItem a) = items) := by
  have hdouble : handleToggleFeatured (handleToggleFeatured items a)
      (toggleUpdatedItem a) =
      items.map fun i =>
        if i.id = a.id then { a with featured := some (a.featured.getD false) }
        else i := by
    unfold handleToggleFeatured
    rw [List.map_map]
    apply List.map_congr_left
    intro x _
    by_cases hx : x.id = a.id
    · simp [hx, toggleUpdatedItem]
    · simp [hx, toggleUpdatedItem]
  refine ⟨rfl, ?_, ?_, hdouble, ?_⟩
  · unfold handleToggleFeatured
    rw [List.map_map]
    apply List.map_congr_left
    intro x hx
    by_cases hid : x.id = a.id
    · rw [h x hx hid]
      simp [toggleUpdatedItem]
    · simp [hid]
  · unfold handleToggleFeatured
    rw [List.map_map]
    apply List.map_congr_left
    intro x hx
    by_cases hid : x.id = a.id
    · rw [h x hx hid]
      simp [toggleUpdatedItem]
    · simp [hid]
  · intro b hb
    rw [hdouble]
    have hx2 : ({ a with featured := some (a.featured.getD false) } :
        GalleryItem) = a := by
      rw [hb]
      show ({ a with featured := some b } : GalleryItem) = a
      rw [← hb]
    have hcong : ∀ x ∈ items,
        (if x.id = a.id then
          { a with featured := some (a.featured.getD false) } else x) = id x := by
      intro x hx
      by_cases hid : x.id = a.id
      · rw [if_pos hid, hx2, h x hx hid]
        rfl
      · rw [if_neg hid]
        rfl
    rw [List.map_congr_left hcong, List.map_id]

/-- C7 witness: double toggle on a one-item list whose featured flag is the
defined value `true` restores the list. -/
theorem handleToggleFeatured_spec_witness :
    handleToggleFeatured (handleToggleFeatured [featuredItem] featuredItem)
        (toggleUpdatedItem featuredItem) = [featuredItem] :=
  (handleToggleFeatured_spec [featuredItem] featuredItem
    (by decide)).2.2.2.2 true rfl

/-- C8: an Add with non-empty title and description appends exactly one item
whose order is the prior list length (and whose id is the fresh timestamp),
surfacing no error; an Add with an empty title or description reports the
validation error and leaves the list unchanged, committing nothing. -/
theorem handleAddGalleryItem_validation (items : List GalleryItem)
    (title desc url : String) (id : Nat) (conv : String → Option String) :
    ((title ≠ "" ∧ desc ≠ "") →
      (handleAddGalleryItem items title desc url id conv).items.length =
        items.length + 1 ∧
      (∃ newOne : GalleryItem,
        (handleAddGalleryItem items title desc url id conv).items =
          items ++ [newOne] ∧
        newOne.order = some (items.length : Int) ∧ newOne.id = id) ∧
      (handleAddGalleryItem items title desc url id conv).uploadError = none ∧
      (handleAddGalleryItem items title desc url id conv).committed = true) ∧
    ((title = "" ∨ desc = "") →
      handleAddGalleryItem items title desc url id conv =
        { items := items, committed := false,
          uploadError := some "Por favor complete todos los campos",
          uploadSuccess := false }) := by
  constructor
  · intro h
    have e : handleAddGalleryItem items title desc url id conv =
        { items := items ++
            [{ id := id,
               imageUrl :=
                 if stringStartsWith url "blob:" then
                   match conv url with
                   | some base64 => base64
                   | none => url
                 else url,
               title := title, description := desc,
               order := some (items.length : Int) }],
          committed := true, uploadError := none, uploadSuccess := true } := by
      simp [handleAddGalleryItem, h.1, h.2]
    rw [e]
    exact ⟨by simp, ⟨_, rfl, rfl, rfl⟩, rfl, rfl⟩
  · intro h
    have hneg : ¬ (title ≠ "" ∧ desc ≠ "") := by tauto
    simp [handleAddGalleryItem, hneg]

/-- C8 witness: a valid Add grows the empty list to length one; an Add with
an empty title is rejected with the validation message. -/
theorem handleAddGalleryItem_validation_witness :
    (handleAddGalleryItem [] "t" "d" "/img.png" 11
        (fun _ => none)).items.length =
      ([] : List GalleryItem).length + 1 ∧
    handleAddGalleryItem [] "" "d" "/img.png" 11 (fun _ => none) =
      { items := [], committed := false,
        uploadError := some "Por favor complete todos los campos",
        uploadSuccess := false } :=
  ⟨((handleAddGalleryItem_validation [] "t" "d" "/img.png" 11
      (fun _ => none)).1 ⟨by decide, by decide⟩).1,
   (handleAddGalleryItem_validation [] "" "d" "/img.png" 11
      (fun _ => none)).2 (Or.inl rfl)⟩

/-- C9: `handleDeleteItem` keeps exactly the items whose id differs from the
deleted one, in their existing relative sequence (equal lists once order
fields are erased), reassigns orders to the contiguous range `0..n-1`, and
no remaining item carries the deleted id. -/
theorem handleDeleteItem_spec (items : List GalleryItem) (id : Nat) :
    (handleDeleteItem items id).map eraseOrder =
      (items.filter fun item => item.id ≠ id).map eraseOrder ∧
    (handleDeleteItem items id).map (fun item => item.order) =
      (List.range (items.filter fun item => item.id ≠ id).length).map
        (fun k => some (k : Int)) ∧
    (∀ item ∈ handleDeleteItem items id, item.id ≠ id) := by
  refine ⟨reindexFrom_map_eraseOrder _ 0, ?_, ?_⟩
  · rw [List.range_eq_range']
    exact reindexFrom_map_order _ 0
  · intro item hmem
    have hid : item.id ∈ (handleDeleteItem items id).map
        (fun item => item.id) := List.mem_map_of_mem _ hmem
    unfold handleDeleteItem at hid
    rw [reindexFrom_map_id] at hid
    obtain ⟨x, hx, hxid⟩ := List.mem_map.mp hid
    have := (List.mem_filter.mp hx).2
    simp only [decide_eq_true_eq] at this
    rw [← hxid]
    exact this

/-- C9 witness: deleting id `1` from `[sampleItemA, sampleItemB]` leaves one
item with order `0`, still not carrying id `1`. -/
theorem handleDeleteItem_spec_witness :
    (handleDeleteItem [sampleItemA, sampleItemB] 1).map
        (fun item => item.order) =
      (List.range
          ([sampleItemA, sampleItemB].filter fun item => item.id ≠ 1).length).map
        (fun k => some (k : Int)) ∧
    ({ sampleItemB with order := some 0 } : GalleryItem).id ≠ 1 :=
  ⟨(handleDeleteItem_spec [sampleItemA, sampleItemB] 1).2.1,
   (handleDeleteItem_spec [sampleItemA, sampleItemB] 1).2.2
     { sampleItemB with order := some 0 } (by decide)⟩

/-- C10: editing with an item whose id matches nothing leaves the list's
contents unchanged (the map is the identity), yet the unchanged list is
rewritten to storage and the change event fires with the gallery identifier
and that list; nothing is rejected and no error path is taken. -/
theorem updateGalleryItem_unmatched_id (store : Store) (g : GalleryType)
    (u : GalleryItem)
    (h1 : ∀ item ∈ getGalleryItems store g, item.id ≠ u.id)
    (h2 : ∀ item ∈ getGalleryItems store g, item.order.isSome) :
    updateGalleryItem store g u =
      (fun g' =>
        if g' = g then some (some (getGalleryItems store g)) else store g',
       some (g, getGalleryItems store g)) ∧
    handleSaveEditedItem (getGalleryItems store g) u =
      getGalleryItems store g := by
  have hmap : (getGalleryItems store g).map
      (fun item => if item.id = u.id then u else item) =
      getGalleryItems store g := by
    have hcong : ∀ x ∈ getGalleryItems store g,
        (if x.id = u.id then u else x) = id x := by
      intro x hx
      rw [if_neg (h1 x hx)]
      rfl
    rw [List.map_congr_left hcong, List.map_id]
  have hnorm : normalizeOrders (getGalleryItems store g) =
      getGalleryItems store g := by
    unfold normalizeOrders
    exact normalizeOrdersFrom_of_isSome _ h2 0
  constructor
  · simp only [updateGalleryItem, saveGalleryItems]
    rw [hmap, hnorm]
  · unfold handleSaveEditedItem
    exact hmap

/-- C10 witness: editing the stored one-item `hero` gallery with an item of
unmatched id rewrites the same list and fires the event with it. -/
theorem updateGalleryItem_unmatched_id_witness :
    updateGalleryItem definedStore GalleryType.hero sampleItemA =
      (fun g' =>
        if g' = GalleryType.hero then
          some (some (getGalleryItems definedStore GalleryType.hero))
        else definedStore g',
       some (GalleryType.hero,
         getGalleryItems definedStore GalleryType.hero)) ∧
    handleSaveEditedItem (getGalleryItems definedStore GalleryType.hero)
        sampleItemA =
      getGalleryItems definedStore GalleryType.hero :=
  updateGalleryItem_unmatched_id definedStore GalleryType.hero sampleItemA
    (by decide) (by decide)
